import Mathlib

/-!
Verification of the Gengar proxy-rotation core: a shallow embedding of
the proxy pool (`rotation-engine/pool.py`), the five rotation strategies
(`rotation-engine/strategies.py`), the health-checker failure path
(`proxy-scraper/health_checker.py`), and the gateway request handler and
block detection (`gateway/handler.py`).

Redis state is modelled explicitly: string keys holding JSON proxy
records become an association list keyed by address, the membership sets
become duplicate-free lists, and wall-clock time is threaded as an
explicit `Rat` argument.  Randomised choices (`random.choice`,
`random.choices`) are modelled by an external pick index; the weighted
choice of per-request gives every healthy proxy positive weight, so an
arbitrary index is a faithful abstraction of its support.
-/

namespace Gengar

/-- Canonical proxy address: the pair `(ip, port)`. -/
abbrev Addr := String × Nat

/-- A proxy record, one JSON blob stored under `gengar:proxy:<ip>:<port>`.
Counters are naturals; latencies, scores and timestamps are rationals
(the Python floats are used exactly: scores are `success/total*100`). -/
structure ProxyRec where
  ip : String
  port : Nat
  protocol : String
  country : String
  latency_ms : Rat
  health_score : Rat
  last_checked : Rat
  source : String
  fail_count : Nat
  success_count : Nat
  total_checks : Nat
  consecutive_fails : Nat
  created_at : Rat
deriving DecidableEq

/-- Address of a record. -/
def ProxyRec.addr (p : ProxyRec) : Addr := (p.ip, p.port)

/-- Fields of `_default_proxy(ip, port)` before applying overrides. -/
def default_proxy (ip : String) (port : Nat) (now : Rat) : ProxyRec :=
  { ip := ip
    port := port
    protocol := "http"
    country := ""
    latency_ms := 0
    health_score := 0
    last_checked := now
    source := ""
    fail_count := 0
    success_count := 0
    total_checks := 0
    consecutive_fails := 0
    created_at := now }

/-- The keyword overrides callers may pass to `add_proxy` / `bulk_add`:
any record field other than the keying `ip`/`port` arguments, including
the score and the counters (the test fixture passes `health_score`,
`success_count`, `fail_count`, `total_checks`).  `none` models an absent
(or `None`-filtered) keyword. -/
structure Overrides where
  protocol : Option String := none
  country : Option String := none
  latency_ms : Option Rat := none
  health_score : Option Rat := none
  last_checked : Option Rat := none
  source : Option String := none
  fail_count : Option Nat := none
  success_count : Option Nat := none
  total_checks : Option Nat := none
  consecutive_fails : Option Nat := none
  created_at : Option Rat := none
deriving DecidableEq

/-- Mirrors the update with the None-filtered keyword dict. -/
def applyOverrides (p : ProxyRec) (ov : Overrides) : ProxyRec :=
  { p with
    protocol := ov.protocol.getD p.protocol
    country := ov.country.getD p.country
    latency_ms := ov.latency_ms.getD p.latency_ms
    health_score := ov.health_score.getD p.health_score
    last_checked := ov.last_checked.getD p.last_checked
    source := ov.source.getD p.source
    fail_count := ov.fail_count.getD p.fail_count
    success_count := ov.success_count.getD p.success_count
    total_checks := ov.total_checks.getD p.total_checks
    consecutive_fails := ov.consecutive_fails.getD p.consecutive_fails
    created_at := ov.created_at.getD p.created_at }

/-- One element of a `bulk_add` batch: the dict `p` with its `ip`,
`port` and remaining keyword fields. -/
structure BulkEntry where
  ip : String
  port : Nat
  ov : Overrides
deriving DecidableEq

def BulkEntry.addr (e : BulkEntry) : Addr := (e.ip, e.port)

-- ── Redis primitives ─────────────────────────────────────────

/-- Redis `SADD`: insert if absent. -/
def sadd (l : List Addr) (a : Addr) : List Addr :=
  if a ∈ l then l else l ++ [a]

/-- Redis `SREM`: remove all occurrences. -/
def srem (l : List Addr) (a : Addr) : List Addr :=
  l.filter (fun b => b ≠ a)

/-- Redis `GET` on the record store. -/
def getRec : List (Addr × ProxyRec) → Addr → Option ProxyRec
  | [], _ => none
  | (b, q) :: t, a => if b = a then some q else getRec t a

/-- Redis `SET` on the record store: replace the first binding or append. -/
def setRec : List (Addr × ProxyRec) → Addr → ProxyRec → List (Addr × ProxyRec)
  | [], a, p => [(a, p)]
  | (b, q) :: t, a, p => if b = a then (a, p) :: t else (b, q) :: setRec t a p

/-- Redis `DELETE` on the record store. -/
def delRec : List (Addr × ProxyRec) → Addr → List (Addr × ProxyRec)
  | [], _ => []
  | (b, q) :: t, a => if b = a then delRec t a else (b, q) :: delRec t a

/-- The whole Redis state the core touches: proxy records, the three
membership sets, session pins, the round-robin cursor, and the config
entries the time-based and on-block strategies persist. -/
structure PoolState where
  records : List (Addr × ProxyRec)
  index : List Addr
  healthy : List Addr
  dead : List Addr
  sessions : List (String × ProxyRec)
  rrIndex : Nat
  cfgTimeProxy : Option ProxyRec
  cfgTimeLast : Option Rat
  cfgOnBlockProxy : Option ProxyRec

def emptyPool : PoolState :=
  { records := [], index := [], healthy := [], dead := [],
    sessions := [], rrIndex := 0,
    cfgTimeProxy := none, cfgTimeLast := none, cfgOnBlockProxy := none }

-- ── ProxyPool operations (pool.py) ───────────────────────────

/-- Embeds `ProxyPool.add_proxy`: insert-if-absent (existing record updated
with the overrides only), add to `index` and `healthy`, remove from
`dead`. -/
def add_proxy (s : PoolState) (ip : String) (port : Nat) (ov : Overrides)
    (now : Rat) : PoolState :=
  let a : Addr := (ip, port)
  let proxy := match getRec s.records a with
    | some p => applyOverrides p ov
    | none => applyOverrides (default_proxy ip port now) ov
  let s' := { s with
    records := setRec s.records a proxy
    index := sadd s.index a
    dead := srem s.dead a }
  if 0 ≤ proxy.health_score then { s' with healthy := sadd s'.healthy a } else s'

/-- Embeds `ProxyPool.record_success`. -/
def record_success (s : PoolState) (ip : String) (port : Nat)
    (latency now : Rat) : PoolState :=
  let a : Addr := (ip, port)
  match getRec s.records a with
  | none => s
  | some p =>
    let p1 := { p with
      success_count := p.success_count + 1
      total_checks := p.total_checks + 1
      consecutive_fails := 0
      latency_ms := latency
      last_checked := now }
    let p2 := { p1 with
      health_score :=
        if p1.total_checks = 0 then 0
        else ((p1.success_count : Rat) / (p1.total_checks : Rat)) * 100 }
    { s with
      records := setRec s.records a p2
      healthy := sadd s.healthy a
      dead := srem s.dead a }

/-- Embeds `ProxyPool.mark_dead`. -/
def mark_dead (s : PoolState) (ip : String) (port : Nat) : PoolState :=
  let a : Addr := (ip, port)
  { s with dead := sadd s.dead a, healthy := srem s.healthy a }

/-- Embeds `ProxyPool.record_failure`: increment counters, recompute the score,
and after three consecutive fails call `mark_dead`. -/
def record_failure (s : PoolState) (ip : String) (port : Nat)
    (now : Rat) : PoolState :=
  let a : Addr := (ip, port)
  match getRec s.records a with
  | none => s
  | some p =>
    let p1 := { p with
      fail_count := p.fail_count + 1
      total_checks := p.total_checks + 1
      consecutive_fails := p.consecutive_fails + 1
      last_checked := now }
    let p2 := { p1 with
      health_score :=
        if p1.total_checks = 0 then 0
        else ((p1.success_count : Rat) / (p1.total_checks : Rat)) * 100 }
    let s' := { s with records := setRec s.records a p2 }
    if 3 ≤ p2.consecutive_fails then mark_dead s' ip port else s'

/-- Embeds `ProxyPool.remove_proxy`: delete the record and clear every set. -/
def remove_proxy (s : PoolState) (ip : String) (port : Nat) : PoolState :=
  let a : Addr := (ip, port)
  { s with
    records := delRec s.records a
    index := srem s.index a
    dead := srem s.dead a
    healthy := srem s.healthy a }

/-- Strict comparison on the Python sort key `(-health_score, latency_ms)`. -/
def keyLt (p q : ProxyRec) : Bool :=
  decide (-p.health_score < -q.health_score ∨
    (-p.health_score = -q.health_score ∧ p.latency_ms < q.latency_ms))

/-- Stable insertion: `x` goes after every element it does not strictly
precede, as Python's stable `list.sort` does for equal keys. -/
def sortIns (p : ProxyRec) : List ProxyRec → List ProxyRec
  | [] => [p]
  | q :: qs => if keyLt p q then p :: q :: qs else q :: sortIns p qs

/-- Stable sort by `(-health_score, latency_ms)`. -/
def sortProxies (l : List ProxyRec) : List ProxyRec :=
  l.foldl (fun acc p => sortIns p acc) []

/-- Embeds `ProxyPool.get_healthy_proxies`: load the healthy-set members that
still have a record, filter by `health_score ≥ min_score`, sort. -/
def get_healthy_proxies (s : PoolState) (minScore : Rat) : List ProxyRec :=
  let recs := s.healthy.filterMap (fun a => getRec s.records a)
  sortProxies (recs.filter (fun p => minScore ≤ p.health_score))

-- ── Sessions, config, cursor ─────────────────────────────────

def get_session_proxy (s : PoolState) (sid : String) : Option ProxyRec :=
  s.sessions.lookup sid

def set_session_proxy (s : PoolState) (sid : String) (p : ProxyRec) : PoolState :=
  { s with sessions := (sid, p) :: s.sessions.filter (fun e => e.1 ≠ sid) }

def get_rr_index (s : PoolState) : Nat := s.rrIndex

def set_rr_index (s : PoolState) (i : Nat) : PoolState := { s with rrIndex := i }

-- ── Rotation strategies (strategies.py) ──────────────────────

/-- The five strategy names. -/
inductive Strat
  | perRequest
  | perSession
  | timeBased
  | onBlock
  | roundRobin
deriving DecidableEq

/-- The context dict passed to `select`. -/
structure Ctx where
  session_id : Option String := none
  session_ttl : Nat := 300
  rotation_interval : Nat := 30
deriving DecidableEq

/-- Placeholder record for guarded list indexing. -/
def dummyProxy : ProxyRec := default_proxy "" 0 0

/-- Embeds `PerRequestStrategy.select`: weighted random over the healthy pool;
every weight is `max(health_score, 1) ≥ 1`, so any element can be drawn.
The draw is modelled by the external `pick` index. -/
def per_request_select (s : PoolState) (pick : Nat) :
    Option ProxyRec × PoolState :=
  let proxies := get_healthy_proxies s 0
  if proxies = [] then (none, s)
  else (some (proxies.getD (pick % proxies.length) dummyProxy), s)

/-- Embeds `PerSessionStrategy.select`: return a live, not-dead session pin;
otherwise draw from healthy and (when a session id is given) write the
pin. -/
def per_session_select (s : PoolState) (ctx : Ctx) (pick : Nat) :
    Option ProxyRec × PoolState :=
  let cachedHit : Option ProxyRec :=
    match ctx.session_id with
    | none => none
    | some sid =>
      match get_session_proxy s sid with
      | none => none
      | some cached => if cached.addr ∈ s.dead then none else some cached
  match cachedHit with
  | some cached => (some cached, s)
  | none =>
    let proxies := get_healthy_proxies s 0
    if proxies = [] then (none, s)
    else
      let proxy := proxies.getD (pick % proxies.length) dummyProxy
      match ctx.session_id with
      | some sid => (some proxy, set_session_proxy s sid proxy)
      | none => (some proxy, s)

/-- Embeds `TimeBasedStrategy.select`: keep the persisted current proxy while
it is fresh and not dead; otherwise draw a new one and persist it with
the rotation time. -/
def time_based_select (s : PoolState) (ctx : Ctx) (pick : Nat) (now : Rat) :
    Option ProxyRec × PoolState :=
  let lastRotation := s.cfgTimeLast.getD 0
  let keep : Option ProxyRec :=
    match s.cfgTimeProxy with
    | none => none
    | some cur =>
      if now - lastRotation < (ctx.rotation_interval : Rat) then
        if cur.addr ∈ s.dead then none else some cur
      else none
  match keep with
  | some cur => (some cur, s)
  | none =>
    let proxies := get_healthy_proxies s 0
    if proxies = [] then (none, s)
    else
      let proxy := proxies.getD (pick % proxies.length) dummyProxy
      (some proxy, { s with cfgTimeProxy := some proxy, cfgTimeLast := some now })

/-- Embeds `OnBlockStrategy.select`: keep the persisted proxy while not dead;
otherwise take the best-scoring healthy proxy (head of the sorted list)
and persist it. -/
def on_block_select (s : PoolState) : Option ProxyRec × PoolState :=
  let keep : Option ProxyRec :=
    match s.cfgOnBlockProxy with
    | none => none
    | some cur => if cur.addr ∈ s.dead then none else some cur
  match keep with
  | some cur => (some cur, s)
  | none =>
    let proxies := get_healthy_proxies s 0
    if proxies = [] then (none, s)
    else
      let proxy := proxies.getD 0 dummyProxy
      (some proxy, { s with cfgOnBlockProxy := some proxy })

/-- Embeds `RoundRobinStrategy.select`: read the cursor, wrap to 0 past the end,
return that healthy entry, store cursor + 1. -/
def round_robin_select (s : PoolState) : Option ProxyRec × PoolState :=
  let proxies := get_healthy_proxies s 0
  if proxies = [] then (none, s)
  else
    let idx := if proxies.length ≤ get_rr_index s then 0 else get_rr_index s
    (some (proxies.getD idx dummyProxy), set_rr_index s (idx + 1))

/-- Uniform `select(context)` over the five strategies. -/
def strategy_select (st : Strat) (s : PoolState) (ctx : Ctx) (pick : Nat)
    (now : Rat) : Option ProxyRec × PoolState :=
  match st with
  | .perRequest => per_request_select s pick
  | .perSession => per_session_select s ctx pick
  | .timeBased => time_based_select s ctx pick now
  | .onBlock => on_block_select s
  | .roundRobin => round_robin_select s

-- ── Health checker failure path (health_checker.py) ──────────

/-- Embeds `_PoolAdapter.save_proxy`: store the record; only a record saved
with `consecutive_fails = 0` is promoted to healthy / cleared from dead. -/
def save_proxy (s : PoolState) (p : ProxyRec) : PoolState :=
  let a := p.addr
  let s' := { s with records := setRec s.records a p }
  if p.consecutive_fails = 0 then
    { s' with healthy := sadd s'.healthy a, dead := srem s'.dead a }
  else s'

/-- The failure path of `check_single_proxy`: apply the record-failure
update through `save_proxy`; at three consecutive fails remove the proxy
permanently, otherwise mark it dead. -/
def check_failure (s : PoolState) (ip : String) (port : Nat) (now : Rat) :
    PoolState :=
  let a : Addr := (ip, port)
  match getRec s.records a with
  | none => s
  | some p =>
    let p1 := { p with
      fail_count := p.fail_count + 1
      total_checks := p.total_checks + 1
      consecutive_fails := p.consecutive_fails + 1
      last_checked := now }
    let p2 := { p1 with
      health_score :=
        if p1.total_checks = 0 then 0
        else ((p1.success_count : Rat) / (p1.total_checks : Rat)) * 100 }
    let s' := save_proxy s p2
    if 3 ≤ p2.consecutive_fails then remove_proxy s' ip port
    else mark_dead s' ip port

-- ── Block detection (gateway/handler.py) ─────────────────────

def BLOCK_STATUS_CODES : List Nat := [403, 429, 503, 407]

def BLOCK_PATTERNS : List String :=
  ["cloudflare", "captcha", "access denied", "blocked",
   "unusual traffic", "rate limit", "banned", "forbidden"]

def CHALLENGE_URL_PATTERNS : List String :=
  ["/cdn-cgi/challenge", "/challenge", "captcha", "recaptcha"]

def MAX_RETRIES : Nat := 3

/-- Does `needle` occur as a contiguous run of `hay`? -/
def containsSub (needle : List Char) : List Char → Bool
  | [] => needle.isEmpty
  | c :: t => needle.isPrefixOf (c :: t) || containsSub needle t

/-- Models `re.search` with `re.IGNORECASE` for the literal patterns above:
ASCII case-insensitive substring search. -/
def patMatch (pat : String) (text : List Char) : Bool :=
  containsSub (pat.data.map Char.toLower) (text.map Char.toLower)

/-- Embeds `is_blocked(status_code, body, redirect_url)`. -/
def is_blocked (status : Nat) (body : String) (redirect : Option String) :
    Bool :=
  if status ∈ BLOCK_STATUS_CODES then true
  else if BLOCK_PATTERNS.any (fun p => patMatch p (body.data.take 5000)) then
    true
  else
    match redirect with
    | some u =>
      if u = "" then false
      else CHALLENGE_URL_PATTERNS.any (fun p => patMatch p u.data)
    | none => false

-- ── Gateway request handler (gateway/handler.py) ─────────────

/-- An upstream HTTP response as the handler sees it: status, header
list (httpx lowercases names), and the decoded body. -/
structure Response where
  status : Nat
  hdrs : List (String × String)
  body : String
deriving DecidableEq

/-- Models `resp_headers.get("location")`. -/
def getHeader (hdrs : List (String × String)) (k : String) : Option String :=
  hdrs.lookup k

/-- What one attempt of the retry loop can observe. -/
inductive Outcome
  | noProxy
  | transportError
  | ok (r : Response)

/-- The response variables after the try block: a transport error keeps
the defaults `502, {}, b""`. -/
def outcomeResp : Outcome → Response
  | .ok r => r
  | _ => ⟨502, [], ""⟩

/-- The `blocked` flag after the try block. -/
def outcomeBlocked : Outcome → Bool
  | .ok r => is_blocked r.status r.body (getHeader r.hdrs "location")
  | .transportError => true
  | .noProxy => false

/-- How `handle_http_request` returned. -/
inductive GwReturn
  | noHealthy
  | resp (r : Response)
  | exhausted
deriving DecidableEq

/-- One live-log entry, reduced to the fields the claims mention:
attempt number, blocked flag, status. -/
structure LogEntry where
  attempt : Nat
  blocked : Bool
  status : Nat
deriving DecidableEq

/-- Observable trace of one `handle_http_request` call. -/
structure GwTrace where
  result : GwReturn
  markBlocks : Nat
  logs : List LogEntry
deriving DecidableEq

/-- The retry loop of `handle_http_request`.  `oracle` gives each
attempt's outcome; `fuel` is the number of remaining loop iterations of
`range(1, MAX_RETRIES + 1)`. -/
def handle_loop (oracle : Nat → Outcome) : Nat → Nat → Nat → List LogEntry →
    GwTrace
  | 0, _, mb, logs => ⟨.exhausted, mb, logs⟩
  | fuel + 1, attempt, mb, logs =>
    match oracle attempt with
    | .noProxy => ⟨.noHealthy, mb, logs⟩
    | o =>
      let r := outcomeResp o
      let blocked := outcomeBlocked o
      let logs' := logs ++ [⟨attempt, blocked, r.status⟩]
      if blocked then
        if attempt < MAX_RETRIES then
          handle_loop oracle fuel (attempt + 1) (mb + 1) logs'
        else ⟨.resp r, mb + 1, logs'⟩
      else ⟨.resp r, mb, logs'⟩

/-- Embeds `handle_http_request`, as the trace of its retry loop. -/
def handle_http_request (oracle : Nat → Outcome) : GwTrace :=
  handle_loop oracle MAX_RETRIES 1 0 []

-- ── Helper lemmas about the Redis primitives ─────────────────

theorem mem_sadd_self (l : List Addr) (a : Addr) : a ∈ sadd l a := by
  unfold sadd; split
  · assumption
  · exact List.mem_append_right _ (List.mem_singleton.mpr rfl)

theorem mem_srem_iff (l : List Addr) (a b : Addr) :
    b ∈ srem l a ↔ b ∈ l ∧ b ≠ a := by
  unfold srem; simp

theorem not_mem_srem_self (l : List Addr) (a : Addr) : a ∉ srem l a := by
  intro h; exact ((mem_srem_iff l a a).mp h).2 rfl

theorem getRec_setRec_self (rs : List (Addr × ProxyRec)) (a : Addr)
    (p : ProxyRec) : getRec (setRec rs a p) a = some p := by
  induction rs with
  | nil => simp [setRec, getRec]
  | cons e t ih =>
    obtain ⟨b, q⟩ := e
    by_cases hb : b = a
    · simp [setRec, hb, getRec]
    · simp [setRec, hb, getRec, ih]

theorem getRec_delRec_self (rs : List (Addr × ProxyRec)) (a : Addr) :
    getRec (delRec rs a) a = none := by
  induction rs with
  | nil => simp [delRec, getRec]
  | cons e t ih =>
    obtain ⟨b, q⟩ := e
    by_cases hb : b = a
    · simpa [delRec, hb] using ih
    · simpa [delRec, hb, getRec] using ih

/-- The S2 pool: two healthy proxies with scores 90 and 80. -/
def rec90 : ProxyRec := { default_proxy "1.1.1.1" 8080 0 with health_score := 90 }

def rec80 : ProxyRec := { default_proxy "2.2.2.2" 3128 0 with health_score := 80 }

def rrPool : PoolState :=
  { emptyPool with
    records := [(("1.1.1.1", 8080), rec90), (("2.2.2.2", 3128), rec80)]
    index := [("1.1.1.1", 8080), ("2.2.2.2", 3128)]
    healthy := [("1.1.1.1", 8080), ("2.2.2.2", 3128)] }

def rrStep1 : Option ProxyRec × PoolState := round_robin_select rrPool
def rrStep2 : Option ProxyRec × PoolState := round_robin_select rrStep1.2
def rrStep3 : Option ProxyRec × PoolState := round_robin_select rrStep2.2
def rrStep4 : Option ProxyRec × PoolState := round_robin_select rrStep3.2

/-- C9: on the pool `[1.1.1.1:8080 (score 90), 2.2.2.2:3128 (score 80)]`
with cursor 0, the healthy list sorts to `[1.1.1.1, 2.2.2.2]` and four
round-robin selects return `1.1.1.1, 2.2.2.2, 1.1.1.1, 2.2.2.2`, the
cursor stepping 1, 2, then wrapping to 1, 2. -/
theorem c9_round_robin_sequence :
    (get_healthy_proxies rrPool 0).map ProxyRec.addr
      = [("1.1.1.1", 8080), ("2.2.2.2", 3128)] ∧
    rrStep1.1.map ProxyRec.addr = some ("1.1.1.1", 8080) ∧
    rrStep2.1.map ProxyRec.addr = some ("2.2.2.2", 3128) ∧
    rrStep3.1.map ProxyRec.addr = some ("1.1.1.1", 8080) ∧
    rrStep4.1.map ProxyRec.addr = some ("2.2.2.2", 3128) ∧
    rrStep1.2.rrIndex = 1 ∧ rrStep2.2.rrIndex = 2 ∧
    rrStep3.2.rrIndex = 1 ∧ rrStep4.2.rrIndex = 2 := by
  decide

-- ── C5 ───────────────────────────────────────────────────────

/-- The spec's wording of block detection, §4.F: status in the set, or a
pattern in the first 5 KB of the body, or a present redirect URL
matching a challenge pattern. -/
def blocked_spec (status : Nat) (body : String) (redirect : Option String) :
    Prop :=
  status ∈ ([403, 407, 429, 503] : List Nat) ∨
  (∃ pat ∈ BLOCK_PATTERNS, patMatch pat (body.data.take 5000) = true) ∨
  (∃ u, redirect = some u ∧
    ∃ pat ∈ CHALLENGE_URL_PATTERNS, patMatch pat u.data = true)

theorem no_challenge_pat_in_empty :
    ∀ pat ∈ CHALLENGE_URL_PATTERNS, patMatch pat ("".data) = false := by
  decide

/-- C5: `is_blocked` returns true exactly under the spec's disjunction,
and in particular returns true on `(200, "Please solve the captcha",
None)` and false on `(200, "hello", None)`. -/
theorem c5_is_blocked_spec :
    (∀ status body redirect,
      is_blocked status body redirect = true ↔ blocked_spec status body redirect) ∧
    is_blocked 200 "Please solve the captcha" none = true ∧
    is_blocked 200 "hello" none = false := by
  refine ⟨?_, by decide, by decide⟩
  intro status body redirect
  unfold is_blocked blocked_spec
  by_cases h1 : status ∈ BLOCK_STATUS_CODES
  · have h1' : status ∈ ([403, 407, 429, 503] : List Nat) := by
      simp only [BLOCK_STATUS_CODES, List.mem_cons, List.mem_singleton] at h1 ⊢
      tauto
    simp [h1, h1']
  · have h1' : status ∉ ([403, 407, 429, 503] : List Nat) := by
      simp only [BLOCK_STATUS_CODES, List.mem_cons, List.mem_singleton] at h1 ⊢
      tauto
    rw [if_neg h1]
    by_cases h2 : BLOCK_PATTERNS.any (fun p => patMatch p (body.data.take 5000)) = true
    · have h2' : ∃ pat ∈ BLOCK_PATTERNS, patMatch pat (body.data.take 5000) = true :=
        List.any_eq_true.mp h2
      simp [h2, h2']
    · have h2' : ¬ ∃ pat ∈ BLOCK_PATTERNS, patMatch pat (body.data.take 5000) = true :=
        fun hx => h2 (List.any_eq_true.mpr hx)
      rw [if_neg (by simpa using h2)]
      cases redirect with
      | none => simp [h1', h2']
      | some u =>
        by_cases hu : u = ""
        · subst hu
          simp only [if_pos rfl]
          constructor
          · intro hfalse; cases hfalse
          · rintro (h | h | ⟨u', hu', pat, hpat, hm⟩)
            · exact absurd h h1'
            · exact absurd h h2'
            · cases hu'
              exact absurd hm (by simpa using no_challenge_pat_in_empty pat hpat)
        · simp only [if_neg hu]
          constructor
          · intro hany
            exact Or.inr (Or.inr ⟨u, rfl, List.any_eq_true.mp hany⟩)
          · rintro (h | h | ⟨u', hu', pat, hpat, hm⟩)
            · exact absurd h h1'
            · exact absurd h h2'
            · cases hu'
              exact List.any_eq_true.mpr ⟨pat, hpat, hm⟩

-- ── C10 ──────────────────────────────────────────────────────

/-- One unrolling of the retry loop. -/
theorem handle_loop_step (oracle : Nat → Outcome) (fuel attempt mb : Nat)
    (logs : List LogEntry) :
    handle_loop oracle (fuel + 1) attempt mb logs =
      match oracle attempt with
      | .noProxy => ⟨.noHealthy, mb, logs⟩
      | o =>
        let r := outcomeResp o
        let blocked := outcomeBlocked o
        let logs' := logs ++ [⟨attempt, blocked, r.status⟩]
        if blocked then
          if attempt < MAX_RETRIES then
            handle_loop oracle fuel (attempt + 1) (mb + 1) logs'
          else ⟨.resp r, mb + 1, logs'⟩
        else ⟨.resp r, mb, logs'⟩ := rfl

theorem handle_loop_not_exhausted (oracle : Nat → Outcome) :
    ∀ (fuel attempt mb : Nat) (logs : List LogEntry),
      MAX_RETRIES ≤ attempt + fuel →
      (handle_loop oracle (fuel + 1) attempt mb logs).result ≠ .exhausted := by
  intro fuel
  induction fuel with
  | zero =>
    intro attempt mb logs hle
    have hnlt : ¬ attempt < MAX_RETRIES := by omega
    rw [handle_loop_step]
    cases ho : oracle attempt with
    | noProxy => simp
    | transportError => simp [outcomeBlocked, hnlt]
    | ok r =>
      by_cases hb : outcomeBlocked (.ok r) = true <;> simp [hb, hnlt]
  | succ f ih =>
    intro attempt mb logs hle
    rw [handle_loop_step]
    cases ho : oracle attempt with
    | noProxy => simp
    | transportError =>
      by_cases hlt : attempt < MAX_RETRIES
      · simp only [outcomeBlocked, outcomeResp, if_pos hlt, if_true]
        exact ih (attempt + 1) (mb + 1) _ (by omega)
      · simp [outcomeBlocked, hlt]
    | ok r =>
      by_cases hb : outcomeBlocked (.ok r) = true
      · by_cases hlt : attempt < MAX_RETRIES
        · simp only [hb, outcomeResp, if_pos hlt, if_true]
          exact ih (attempt + 1) (mb + 1) _ (by omega)
        · simp [hb, hlt]
      · simp [hb]

/-- C10: `handle_http_request` always returns through one of the
in-loop returns — the no-healthy-proxies 502, a blocked final attempt's
response, or a success response; the trailing all-retries-exhausted
branch is unreachable. -/
theorem c10_no_exhausted_return (oracle : Nat → Outcome) :
    (handle_http_request oracle).result = .noHealthy ∨
    (∃ r, (handle_http_request oracle).result = .resp r) := by
  have h : (handle_http_request oracle).result ≠ .exhausted := by
    have := handle_loop_not_exhausted oracle (MAX_RETRIES - 1) 1 0 []
      (by norm_num [MAX_RETRIES])
    simpa [handle_http_request, MAX_RETRIES] using this
  cases hres : (handle_http_request oracle).result with
  | noHealthy => exact Or.inl rfl
  | resp r => exact Or.inr ⟨r, rfl⟩
  | exhausted => exact absurd hres h

-- ── C6 ───────────────────────────────────────────────────────

/-- C6: when all three attempts yield responses classified as blocked,
the handler notifies mark-block once per attempt (three in total), logs
one entry per attempt, and returns the last attempt's response. -/
theorem c6_all_blocked_returns_last (oracle : Nat → Outcome)
    (r1 r2 r3 : Response)
    (h1 : oracle 1 = .ok r1)
    (hb1 : is_blocked r1.status r1.body (getHeader r1.hdrs "location") = true)
    (h2 : oracle 2 = .ok r2)
    (hb2 : is_blocked r2.status r2.body (getHeader r2.hdrs "location") = true)
    (h3 : oracle 3 = .ok r3)
    (hb3 : is_blocked r3.status r3.body (getHeader r3.hdrs "location") = true) :
    handle_http_request oracle =
      ⟨.resp r3, 3,
       [⟨1, true, r1.status⟩, ⟨2, true, r2.status⟩, ⟨3, true, r3.status⟩]⟩ := by
  simp [handle_http_request, MAX_RETRIES, handle_loop, h1, h2, h3,
    outcomeBlocked, outcomeResp, hb1, hb2, hb3]

def allBlockedOracle : Nat → Outcome := fun _ => .ok ⟨403, [], ""⟩

/-- Witness for C6 on an oracle whose every attempt answers 403. -/
theorem c6_all_blocked_returns_last_witness :
    allBlockedOracle 1 = .ok ⟨403, [], ""⟩ ∧
    is_blocked 403 "" (getHeader ([] : List (String × String)) "location") = true ∧
    handle_http_request allBlockedOracle =
      ⟨.resp ⟨403, [], ""⟩, 3, [⟨1, true, 403⟩, ⟨2, true, 403⟩, ⟨3, true, 403⟩]⟩ :=
  ⟨rfl, by decide,
   c6_all_blocked_returns_last allBlockedOracle ⟨403, [], ""⟩ ⟨403, [], ""⟩ ⟨403, [], ""⟩
     rfl (by decide) rfl (by decide) rfl (by decide)⟩

-- ── C2 ───────────────────────────────────────────────────────

/-- A reachable state with an empty healthy set but a live session pin:
add `9.9.9.9:3128`, pin it to session `"s"`, then remove it from the
pool (the pin outlives the removal). -/
def c2State : PoolState :=
  remove_proxy
    (set_session_proxy (add_proxy emptyPool "9.9.9.9" 3128 {} 0) "s"
      (default_proxy "9.9.9.9" 3128 0))
    "9.9.9.9" 3128

/-- C2 counterexample: per-session `select` returns the pinned proxy —
not none — although `get_healthy()` is empty, so "none iff healthy
empty" fails (the pinned address is absent from the dead set). -/
theorem c2_select_none_iff_counterexample :
    get_healthy_proxies c2State 0 = [] ∧
    (strategy_select .perSession c2State ⟨some "s", 300, 30⟩ 0 0).1
      = some (default_proxy "9.9.9.9" 3128 0) := by
  constructor
  · decide
  · decide

/-- A reachable state with an empty healthy set but a persisted on-block
current proxy: add `9.9.9.9:3128`, let the on-block strategy persist it,
then remove it from the pool (the config entry survives). -/
def c2OnBlockState : PoolState :=
  remove_proxy (on_block_select (add_proxy emptyPool "9.9.9.9" 3128 {} 0)).2
    "9.9.9.9" 3128

/-- A reachable state with an empty healthy set but a persisted
time-based current proxy and rotation time 0: add `9.9.9.9:3128`, let
the time-based strategy rotate onto it at time 0, then remove it. -/
def c2TimeState : PoolState :=
  remove_proxy (time_based_select (add_proxy emptyPool "9.9.9.9" 3128 {} 0)
      ⟨none, 300, 30⟩ 0 0).2
    "9.9.9.9" 3128

/-- C2 (amended): every strategy returns none ONLY IF `get_healthy()`
is empty; for per-request and round-robin the converse also holds (an
empty healthy list forces none); and each of the pinned strategies
(per-session, time-based, on-block) can return a cached, not-dead proxy
even though the healthy list is empty. -/
theorem c2_select_none_characterization :
    (∀ (st : Strat) (s : PoolState) (ctx : Ctx) (pick : Nat) (now : Rat),
      (strategy_select st s ctx pick now).1 = none →
      get_healthy_proxies s 0 = []) ∧
    (∀ (s : PoolState) (ctx : Ctx) (pick : Nat) (now : Rat),
      get_healthy_proxies s 0 = [] →
      (strategy_select .perRequest s ctx pick now).1 = none) ∧
    (∀ (s : PoolState) (ctx : Ctx) (pick : Nat) (now : Rat),
      get_healthy_proxies s 0 = [] →
      (strategy_select .roundRobin s ctx pick now).1 = none) ∧
    (∃ (s : PoolState) (ctx : Ctx) (pick : Nat) (now : Rat),
      get_healthy_proxies s 0 = [] ∧
      (strategy_select .perSession s ctx pick now).1 ≠ none) ∧
    (∃ (s : PoolState) (ctx : Ctx) (pick : Nat) (now : Rat),
      get_healthy_proxies s 0 = [] ∧
      (strategy_select .timeBased s ctx pick now).1 ≠ none) ∧
    (∃ (s : PoolState) (ctx : Ctx) (pick : Nat) (now : Rat),
      get_healthy_proxies s 0 = [] ∧
      (strategy_select .onBlock s ctx pick now).1 ≠ none) := by
  refine ⟨?_, ?_, ?_, ?_, ?_, ?_⟩
  · intro st s ctx pick now h
    by_cases hl : get_healthy_proxies s 0 = []
    · exact hl
    · exfalso
      cases st with
      | perRequest =>
        simp only [strategy_select, per_request_select] at h
        rw [if_neg hl] at h
        simp at h
      | perSession =>
        simp only [strategy_select, per_session_select] at h
        split at h
        · simp at h
        · rw [if_neg hl] at h
          split at h <;> simp at h
      | timeBased =>
        simp only [strategy_select, time_based_select] at h
        split at h
        · simp at h
        · rw [if_neg hl] at h
          simp at h
      | onBlock =>
        simp only [strategy_select, on_block_select] at h
        split at h
        · simp at h
        · rw [if_neg hl] at h
          simp at h
      | roundRobin =>
        simp only [strategy_select, round_robin_select] at h
        rw [if_neg hl] at h
        simp at h
  · intro s ctx pick now h
    simp only [strategy_select, per_request_select]
    rw [if_pos h]
  · intro s ctx pick now h
    simp only [strategy_select, round_robin_select]
    rw [if_pos h]
  · exact ⟨c2State, ⟨some "s", 300, 30⟩, 0, 0, by decide, by decide⟩
  · refine ⟨c2TimeState, ⟨none, 300, 30⟩, 0, 0, by decide, ?_⟩
    have h1 : c2TimeState.cfgTimeProxy = some (default_proxy "9.9.9.9" 3128 0) := by
      decide
    have h2 : c2TimeState.cfgTimeLast = some 0 := by decide
    have h3 : c2TimeState.dead = [] := by decide
    simp only [strategy_select, time_based_select, h1, h2, h3, Option.getD_some]
    norm_num
    exact Option.some_ne_none _
  · refine ⟨c2OnBlockState, ⟨none, 300, 30⟩, 0, 0, by decide, by decide⟩

/-- Witness for C2 (amended), exercising the universally quantified
parts at the empty pool. -/
theorem c2_select_none_characterization_witness :
    get_healthy_proxies emptyPool 0 = [] ∧
    (strategy_select .perRequest emptyPool ⟨none, 300, 30⟩ 0 0).1 = none ∧
    (strategy_select .roundRobin emptyPool ⟨none, 300, 30⟩ 0 0).1 = none :=
  ⟨c2_select_none_characterization.1 .perRequest emptyPool ⟨none, 300, 30⟩ 0 0
     (by decide),
   c2_select_none_characterization.2.1 emptyPool ⟨none, 300, 30⟩ 0 0 (by decide),
   c2_select_none_characterization.2.2.1 emptyPool ⟨none, 300, 30⟩ 0 0 (by decide)⟩

-- ── C8 ───────────────────────────────────────────────────────

/-- C8: on a present proxy, `record_success` increments success and
total, zeroes `consecutive_fails`, stores the latency and check time,
recomputes the score as `success/total*100`, adds the address to the
healthy set and removes it from the dead set; on an absent proxy it is
a no-op. -/
theorem c8_record_success (s : PoolState) (ip : String) (port : Nat)
    (lat now : Rat) :
    (∀ p, getRec s.records (ip, port) = some p →
      ∃ q, getRec (record_success s ip port lat now).records (ip, port) = some q ∧
        q.success_count = p.success_count + 1 ∧
        q.total_checks = p.total_checks + 1 ∧
        q.consecutive_fails = 0 ∧
        q.latency_ms = lat ∧
        q.last_checked = now ∧
        q.health_score = ((q.success_count : Rat) / (q.total_checks : Rat)) * 100 ∧
        (ip, port) ∈ (record_success s ip port lat now).healthy ∧
        (ip, port) ∉ (record_success s ip port lat now).dead) ∧
    (getRec s.records (ip, port) = none → record_success s ip port lat now = s) := by
  constructor
  · intro p hp
    simp only [record_success, hp]
    refine ⟨_, getRec_setRec_self _ _ _, rfl, rfl, rfl, rfl, rfl, ?_, ?_, ?_⟩
    · simp [Nat.succ_ne_zero]
    · exact mem_sadd_self _ _
    · exact not_mem_srem_self _ _
  · intro h
    simp only [record_success, h]

/-- Witness for C8 on a freshly added proxy. -/
theorem c8_record_success_witness :
    getRec (add_proxy emptyPool "1.1.1.1" 8080 {} 0).records ("1.1.1.1", 8080)
      = some (default_proxy "1.1.1.1" 8080 0) ∧
    (∃ q, getRec (record_success (add_proxy emptyPool "1.1.1.1" 8080 {} 0)
          "1.1.1.1" 8080 50 7).records ("1.1.1.1", 8080) = some q ∧
      q.success_count = (default_proxy "1.1.1.1" 8080 0).success_count + 1 ∧
      q.total_checks = (default_proxy "1.1.1.1" 8080 0).total_checks + 1 ∧
      q.consecutive_fails = 0 ∧
      q.latency_ms = 50 ∧
      q.last_checked = 7 ∧
      q.health_score = ((q.success_count : Rat) / (q.total_checks : Rat)) * 100 ∧
      ("1.1.1.1", 8080) ∈ (record_success (add_proxy emptyPool "1.1.1.1" 8080 {} 0)
        "1.1.1.1" 8080 50 7).healthy ∧
      ("1.1.1.1", 8080) ∉ (record_success (add_proxy emptyPool "1.1.1.1" 8080 {} 0)
        "1.1.1.1" 8080 50 7).dead) :=
  ⟨by decide,
   (c8_record_success (add_proxy emptyPool "1.1.1.1" 8080 {} 0) "1.1.1.1" 8080 50 7).1
     (default_proxy "1.1.1.1" 8080 0) (by decide)⟩

-- ── record_failure step lemmas ───────────────────────────────

/-- The record written by one `record_failure` on a present proxy. -/
def failedRec (p : ProxyRec) (now : Rat) : ProxyRec :=
  { p with
    fail_count := p.fail_count + 1
    total_checks := p.total_checks + 1
    consecutive_fails := p.consecutive_fails + 1
    last_checked := now
    health_score :=
      if p.total_checks + 1 = 0 then 0
      else ((p.success_count : Rat) / ((p.total_checks + 1 : Nat) : Rat)) * 100 }

theorem record_failure_eq (s : PoolState) (ip : String) (port : Nat)
    (now : Rat) (p : ProxyRec) (hp : getRec s.records (ip, port) = some p) :
    record_failure s ip port now =
      if 3 ≤ p.consecutive_fails + 1 then
        mark_dead { s with records := setRec s.records (ip, port) (failedRec p now) } ip port
      else { s with records := setRec s.records (ip, port) (failedRec p now) } := by
  simp only [record_failure, hp, failedRec]

theorem record_failure_fields (s : PoolState) (ip : String) (port : Nat)
    (now : Rat) (p : ProxyRec) (hp : getRec s.records (ip, port) = some p) :
    ∃ q, getRec (record_failure s ip port now).records (ip, port) = some q ∧
      q.fail_count = p.fail_count + 1 ∧
      q.total_checks = p.total_checks + 1 ∧
      q.consecutive_fails = p.consecutive_fails + 1 ∧
      q.success_count = p.success_count ∧
      (record_failure s ip port now).index = s.index ∧
      (3 ≤ p.consecutive_fails + 1 →
        (ip, port) ∈ (record_failure s ip port now).dead) := by
  rw [record_failure_eq s ip port now p hp]
  by_cases hc : 3 ≤ p.consecutive_fails + 1
  · rw [if_pos hc]
    refine ⟨failedRec p now, ?_, rfl, rfl, rfl, rfl, ?_, ?_⟩
    · simp [mark_dead, getRec_setRec_self]
    · simp [mark_dead]
    · intro _
      simp [mark_dead]
      exact mem_sadd_self _ _
  · rw [if_neg hc]
    exact ⟨failedRec p now, getRec_setRec_self _ _ _, rfl, rfl, rfl, rfl, rfl,
      fun h => absurd h hc⟩

-- ── C7 ───────────────────────────────────────────────────────

/-- C7: three consecutive `record_failure`s on a present proxy that
started at `consecutive_fails = 0` add 3 to `fail_count` and
`total_checks`, leave the proxy in the dead set with its record intact
and the index untouched; on an absent proxy `record_failure` is a
no-op. -/
theorem c7_three_failures_dead (s : PoolState) (ip : String) (port : Nat)
    (n1 n2 n3 : Rat) :
    (∀ p, getRec s.records (ip, port) = some p → p.consecutive_fails = 0 →
      ∃ q, getRec (record_failure (record_failure (record_failure s ip port n1)
            ip port n2) ip port n3).records (ip, port) = some q ∧
        q.fail_count = p.fail_count + 3 ∧
        q.total_checks = p.total_checks + 3 ∧
        q.consecutive_fails = 3 ∧
        (ip, port) ∈ (record_failure (record_failure (record_failure s ip port n1)
          ip port n2) ip port n3).dead ∧
        (record_failure (record_failure (record_failure s ip port n1)
          ip port n2) ip port n3).index = s.index) ∧
    (getRec s.records (ip, port) = none → record_failure s ip port n1 = s) := by
  constructor
  · intro p hp hcf
    obtain ⟨q1, hq1, hf1, ht1, hc1, -, hi1, -⟩ :=
      record_failure_fields s ip port n1 p hp
    obtain ⟨q2, hq2, hf2, ht2, hc2, -, hi2, -⟩ :=
      record_failure_fields _ ip port n2 q1 hq1
    obtain ⟨q3, hq3, hf3, ht3, hc3, -, hi3, hd3⟩ :=
      record_failure_fields _ ip port n3 q2 hq2
    refine ⟨q3, hq3, by omega, by omega, by omega, hd3 (by omega), by
      rw [hi3, hi2, hi1]⟩
  · intro h
    simp only [record_failure, h]

/-- Witness for C7 on a freshly added proxy. -/
theorem c7_three_failures_dead_witness :
    getRec (add_proxy emptyPool "1.1.1.1" 8080 {} 0).records ("1.1.1.1", 8080)
      = some (default_proxy "1.1.1.1" 8080 0) ∧
    (default_proxy "1.1.1.1" 8080 0).consecutive_fails = 0 ∧
    (∃ q, getRec (record_failure (record_failure (record_failure
          (add_proxy emptyPool "1.1.1.1" 8080 {} 0) "1.1.1.1" 8080 1)
          "1.1.1.1" 8080 2) "1.1.1.1" 8080 3).records ("1.1.1.1", 8080) = some q ∧
      q.fail_count = (default_proxy "1.1.1.1" 8080 0).fail_count + 3 ∧
      q.total_checks = (default_proxy "1.1.1.1" 8080 0).total_checks + 3 ∧
      q.consecutive_fails = 3 ∧
      ("1.1.1.1", 8080) ∈ (record_failure (record_failure (record_failure
        (add_proxy emptyPool "1.1.1.1" 8080 {} 0) "1.1.1.1" 8080 1)
        "1.1.1.1" 8080 2) "1.1.1.1" 8080 3).dead ∧
      (record_failure (record_failure (record_failure
        (add_proxy emptyPool "1.1.1.1" 8080 {} 0) "1.1.1.1" 8080 1)
        "1.1.1.1" 8080 2) "1.1.1.1" 8080 3).index
        = (add_proxy emptyPool "1.1.1.1" 8080 {} 0).index) :=
  ⟨by decide, by decide,
   (c7_three_failures_dead (add_proxy emptyPool "1.1.1.1" 8080 {} 0)
       "1.1.1.1" 8080 1 2 3).1
     (default_proxy "1.1.1.1" 8080 0) (by decide) (by decide)⟩

-- ── C3 ───────────────────────────────────────────────────────

theorem save_proxy_eq_of_fails (s : PoolState) (p : ProxyRec)
    (h : p.consecutive_fails ≠ 0) :
    save_proxy s p = { s with records := setRec s.records p.addr p } := by
  simp only [save_proxy, if_neg h]

/-- C3: on a failed probe of a present, consistently keyed pool member,
the health checker applies the record-failure update; exactly when the
resulting `consecutive_fails` reaches 3 it removes the proxy permanently
(record deleted, address cleared from index, healthy and dead),
otherwise the updated record stays and the address is marked dead. -/
theorem c3_health_check_failure (s : PoolState) (ip : String) (port : Nat)
    (now : Rat) (p : ProxyRec)
    (hp : getRec s.records (ip, port) = some p)
    (hip : p.ip = ip) (hport : p.port = port) :
    (3 ≤ p.consecutive_fails + 1 →
      getRec (check_failure s ip port now).records (ip, port) = none ∧
      (ip, port) ∉ (check_failure s ip port now).index ∧
      (ip, port) ∉ (check_failure s ip port now).healthy ∧
      (ip, port) ∉ (check_failure s ip port now).dead) ∧
    (p.consecutive_fails + 1 < 3 →
      ∃ q, getRec (check_failure s ip port now).records (ip, port) = some q ∧
        q.fail_count = p.fail_count + 1 ∧
        q.total_checks = p.total_checks + 1 ∧
        q.consecutive_fails = p.consecutive_fails + 1 ∧
        q.health_score = ((p.success_count : Rat) / ((p.total_checks + 1 : Nat) : Rat)) * 100 ∧
        (ip, port) ∈ (check_failure s ip port now).dead ∧
        (ip, port) ∉ (check_failure s ip port now).healthy) := by
  have haddr : (failedRec p now).addr = (ip, port) := by
    simp [failedRec, ProxyRec.addr, hip, hport]
  have hsv : save_proxy s (failedRec p now)
      = { s with records := setRec s.records (ip, port) (failedRec p now) } := by
    rw [save_proxy_eq_of_fails s (failedRec p now) (by simp [failedRec]), haddr]
  simp only [failedRec] at hsv
  have hcf : check_failure s ip port now =
      if 3 ≤ p.consecutive_fails + 1 then
        remove_proxy { s with records := setRec s.records (ip, port) (failedRec p now) } ip port
      else mark_dead { s with records := setRec s.records (ip, port) (failedRec p now) } ip port := by
    simp only [check_failure, hp, failedRec]
    rw [hsv]
  constructor
  · intro hge
    rw [hcf, if_pos hge]
    refine ⟨?_, ?_, ?_, ?_⟩
    · simp [remove_proxy]
      exact getRec_delRec_self _ _
    · simp [remove_proxy]
      exact not_mem_srem_self _ _
    · simp [remove_proxy]
      exact not_mem_srem_self _ _
    · simp [remove_proxy]
      exact not_mem_srem_self _ _
  · intro hlt
    rw [hcf, if_neg (by omega)]
    refine ⟨failedRec p now, ?_, rfl, rfl, rfl, ?_, ?_, ?_⟩
    · simp [mark_dead]
      exact getRec_setRec_self _ _ _
    · simp [failedRec, Nat.succ_ne_zero]
    · simp [mark_dead]
      exact mem_sadd_self _ _
    · simp [mark_dead]
      exact not_mem_srem_self _ _

/-- Witness for C3 on a freshly added proxy (first failure: marked dead,
not removed). -/
theorem c3_health_check_failure_witness :
    getRec (add_proxy emptyPool "1.1.1.1" 8080 {} 0).records ("1.1.1.1", 8080)
      = some (default_proxy "1.1.1.1" 8080 0) ∧
    (default_proxy "1.1.1.1" 8080 0).ip = "1.1.1.1" ∧
    (default_proxy "1.1.1.1" 8080 0).port = 8080 ∧
    (default_proxy "1.1.1.1" 8080 0).consecutive_fails + 1 < 3 ∧
    (∃ q, getRec (check_failure (add_proxy emptyPool "1.1.1.1" 8080 {} 0)
          "1.1.1.1" 8080 5).records ("1.1.1.1", 8080) = some q ∧
      q.fail_count = (default_proxy "1.1.1.1" 8080 0).fail_count + 1 ∧
      q.total_checks = (default_proxy "1.1.1.1" 8080 0).total_checks + 1 ∧
      q.consecutive_fails = (default_proxy "1.1.1.1" 8080 0).consecutive_fails + 1 ∧
      q.health_score = (((default_proxy "1.1.1.1" 8080 0).success_count : Rat)
        / (((default_proxy "1.1.1.1" 8080 0).total_checks + 1 : Nat) : Rat)) * 100 ∧
      ("1.1.1.1", 8080) ∈ (check_failure (add_proxy emptyPool "1.1.1.1" 8080 {} 0)
        "1.1.1.1" 8080 5).dead ∧
      ("1.1.1.1", 8080) ∉ (check_failure (add_proxy emptyPool "1.1.1.1" 8080 {} 0)
        "1.1.1.1" 8080 5).healthy) :=
  ⟨by decide, rfl, rfl, by decide,
   (c3_health_check_failure (add_proxy emptyPool "1.1.1.1" 8080 {} 0)
       "1.1.1.1" 8080 5 (default_proxy "1.1.1.1" 8080 0)
       (by decide) rfl rfl).2 (by decide)⟩

-- ── C4: pool operation algebra ───────────────────────────────

end Gengar
